import Mathlib

/-!
Verification development for the go-api-template repository.

This file gives a shallow embedding of the parts of the program the
claims are about: the error-wrapping package (`pkg/errors`), the cache
facade with its `Remember` pattern (`pkg/cache/facade.go`), the generic
repository (`pkg/database/base_repository.go`), the Demo service and
controller (`internal/service/demo_service.go`,
`internal/controller/demo_controller.go`), the uniform response envelope
(`pkg/web/response.go`), the CORS middleware
(`internal/middleware/cors.go`), and the SHA-1 checksum helper
(`pkg/security/checksum.go`).

Go conventions are embedded as follows: a Go `(T, error)` return value
becomes `Except GoError T` (the zero value returned alongside a non-nil
error is dropped); a nil-able `error` becomes `Option GoError`; mutable
state (the cache backend, the database table) is passed explicitly and
returned; a Go closure with captured mutable state becomes a function
`κ → α × κ` on an explicit closure-state type `κ`.
-/

/-! ## pkg/errors (wrapping cockroachdb/errors)

Errors are modelled as an inductive tree: `base` is `errors.New` (each
sentinel is identified by its message, which is unique among the
sentinels of the package), and the other constructors are the wrapping
combinators of the package.  `errIs` models `errors.Is`: it compares the
whole error against the target and otherwise unwraps one layer, which is
exactly the cause-chain traversal the cockroachdb library performs for
these wrappers. -/

inductive GoError where
  | base (msg : String)
  | wrap (inner : GoError) (msg : String)
  | withStack (inner : GoError)
  | withMessage (inner : GoError) (msg : String)
  | withHint (inner : GoError) (hint : String)
  | withDetail (inner : GoError) (detail : String)
deriving DecidableEq, Repr

/-- Sentinel `errors.ErrNotFound = errors.New("资源不存在")` from `pkg/errors`. -/
def ErrNotFound : GoError := GoError.base "资源不存在"

/-- Sentinel `gorm.ErrRecordNotFound` ("record not found") of the ORM. -/
def gormErrRecordNotFound : GoError := GoError.base "record not found"

/-- Embedding of `errors.Is`: equality with the target, else unwrap one layer. -/
def errIs (e target : GoError) : Bool :=
  (e == target) ||
    match e with
    | GoError.base _ => false
    | GoError.wrap inner _ => errIs inner target
    | GoError.withStack inner => errIs inner target
    | GoError.withMessage inner _ => errIs inner target
    | GoError.withHint inner _ => errIs inner target
    | GoError.withDetail inner _ => errIs inner target

/-- `errors.Wrap(err, msg)`: nil in, nil out; otherwise one `wrap` layer. -/
def GoErrors.Wrap (err : Option GoError) (msg : String) : Option GoError :=
  match err with
  | none => none
  | some e => some (GoError.wrap e msg)

/-- `errors.Wrapf(err, format, args...)`; the formatted message is taken
as an already-rendered string argument. -/
def GoErrors.Wrapf (err : Option GoError) (formatted : String) : Option GoError :=
  match err with
  | none => none
  | some e => some (GoError.wrap e formatted)

/-- `errors.WithStack(err)`: nil in, nil out. -/
def GoErrors.WithStack (err : Option GoError) : Option GoError :=
  match err with
  | none => none
  | some e => some (GoError.withStack e)

/-- `errors.WithMessage(err, msg)`: nil in, nil out. -/
def GoErrors.WithMessage (err : Option GoError) (msg : String) : Option GoError :=
  match err with
  | none => none
  | some e => some (GoError.withMessage e msg)

/-- `errors.WithMessagef(err, format, args...)` with the message pre-rendered. -/
def GoErrors.WithMessagef (err : Option GoError) (formatted : String) : Option GoError :=
  match err with
  | none => none
  | some e => some (GoError.withMessage e formatted)

/-- `errors.WithHint(err, hint)`: nil in, nil out. -/
def GoErrors.WithHint (err : Option GoError) (hint : String) : Option GoError :=
  match err with
  | none => none
  | some e => some (GoError.withHint e hint)

/-- `errors.WithHintf(err, format, args...)` with the hint pre-rendered. -/
def GoErrors.WithHintf (err : Option GoError) (formatted : String) : Option GoError :=
  match err with
  | none => none
  | some e => some (GoError.withHint e formatted)

/-- `errors.WithDetail(err, detail)`: nil in, nil out. -/
def GoErrors.WithDetail (err : Option GoError) (detail : String) : Option GoError :=
  match err with
  | none => none
  | some e => some (GoError.withDetail e detail)

/-- `errors.WithDetailf(err, format, args...)` with the detail pre-rendered. -/
def GoErrors.WithDetailf (err : Option GoError) (formatted : String) : Option GoError :=
  match err with
  | none => none
  | some e => some (GoError.withDetail e formatted)

/-! ## pkg/cache: the facade and the Remember pattern

`CacheFacade` holds an abstract `cache.CacheInterface[string]` manager;
accordingly the embedding is parametric in a `CacheManager` whose state
type is `σ`.  `get` reads the backend (a miss or a backend failure both
surface as an error, matching the interface); `set` may fail and returns
the new backend state.  TTLs are carried as a `Nat` argument; expiry
itself happens inside the backend and is not observed by the facade
code, so the model threads the ttl through without interpreting it. -/

inductive CacheErr where
  | notFound
  | backend (msg : String)
deriving DecidableEq, Repr

structure CacheManager (σ : Type) where
  get : σ → String → Except CacheErr String
  set : σ → String → String → Nat → Except CacheErr Unit × σ

/-- `CacheFacade.Get`: forwards to the manager; on error returns the
zero value with the error, on success the value — collapsed into the
`Except` result. -/
def CacheFacade.get {σ : Type} (m : CacheManager σ) (s : σ) (key : String) :
    Except CacheErr String :=
  match m.get s key with
  | Except.ok value => Except.ok value
  | Except.error e => Except.error e

/-- `CacheFacade.Set`: forwards to `manager.Set(ctx, key, value, WithExpiration(ttl))`. -/
def CacheFacade.set {σ : Type} (m : CacheManager σ) (s : σ) (key value : String)
    (ttl : Nat) : Except CacheErr Unit × σ :=
  m.set s key value ttl

/-- `CacheFacade.Remember(ctx, key, ttl, callback)`: try `Get`; on any
error run the callback; if the callback fails return its error; on
success write the value back with `Set`, discarding the `Set` result
(`_ = f.Set(...)` in the source), and return the value.  The callback is
a Go closure, embedded as a function on its captured state `κ`. -/
def CacheFacade.Remember {σ κ : Type} (m : CacheManager σ) (key : String) (ttl : Nat)
    (callback : κ → Except CacheErr String × κ) (s : σ) (k : κ) :
    Except CacheErr String × σ × κ :=
  match CacheFacade.get m s key with
  | Except.ok value => (Except.ok value, s, k)
  | Except.error _ =>
    match callback k with
    | (Except.error e, k') => (Except.error e, s, k')
    | (Except.ok value, k') =>
      (Except.ok value, (CacheFacade.set m s key value ttl).2, k')

/-- In-memory manager used to exercise the facade: the state is an
association list, `get` is lookup (a missing key is an error, as in the
gocache memory store), `set` prepends and always succeeds.  Expiry is
not modelled. -/
def memManager : CacheManager (List (String × String)) where
  get s key :=
    match s.lookup key with
    | some v => Except.ok v
    | none => Except.error CacheErr.notFound
  set s key value _ttl := (Except.ok (), (key, value) :: s)

/-- Manager whose `set` always fails, to exercise the write-back-failure
path of `Remember`. -/
def failSetManager : CacheManager Unit where
  get _ _ := Except.error CacheErr.notFound
  set s _ _ _ := (Except.error (CacheErr.backend "set failed"), s)

/-- Instrumentation device (not part of the program): pairs a callback's
closure state with a counter that increments on every invocation, so
that "the compute function is invoked exactly once" is observable. -/
def countedCallback {κ : Type} (cb : κ → Except CacheErr String × κ) :
    κ × Nat → Except CacheErr String × (κ × Nat) :=
  fun p => ((cb p.1).1, ((cb p.1).2, p.2 + 1))

/-! ## internal/model + pkg/database/base_repository.go

The Demo record carries id, title, content and status; the two
timestamps are maintained by the persistence layer and are not needed by
any claim, so they are not modelled.  The database table backing the
repository is a list of rows; `dbFirstByID` is the
`Where("id = ?", id).First(dest)` call: the first row with the given id,
or `gorm.ErrRecordNotFound` when zero rows match. -/

structure Demo where
  id : Nat
  title : String
  content : String
  status : Int
deriving DecidableEq, Repr

/-- The underlying `First` query of `BaseRepository.FindByID`. -/
def dbFirstByID (rows : List Demo) (id : Nat) : Except GoError Demo :=
  match rows.find? (fun r => r.id == id) with
  | some r => Except.ok r
  | none => Except.error gormErrRecordNotFound

/-- `BaseRepository.FindByID`, parametric in the outcome of the
underlying `First` call (which may also fail with a driver error): a
`gorm.ErrRecordNotFound` is translated to the sentinel
`errors.ErrNotFound`; any other error is wrapped as
"query by id failed". -/
def BaseRepository.FindByID (firstResult : Except GoError Demo) : Except GoError Demo :=
  match firstResult with
  | Except.ok r => Except.ok r
  | Except.error e =>
    if e == gormErrRecordNotFound then Except.error ErrNotFound
    else Except.error (GoError.wrap e "query by id failed")

/-- `DemoRepository.FindByID`: forwards to the base method and wraps any
error with `errors.Wrapf(err, "demo not found, id: %d", id)`. -/
def DemoRepository.FindByID (id : Nat) (firstResult : Except GoError Demo) :
    Except GoError Demo :=
  match BaseRepository.FindByID firstResult with
  | Except.ok r => Except.ok r
  | Except.error e =>
    Except.error (GoError.wrap e ("demo not found, id: " ++ toString id))

/-- `DemoRepository.FindByID` run against a concrete table. -/
def DemoRepository.findByIDStore (store : List Demo) (id : Nat) : Except GoError Demo :=
  DemoRepository.FindByID id (dbFirstByID store id)

/-- `BaseRepository.FindPage`: a `Count` over the rows matching the
query, then `Offset((page-1)*pageSize).Limit(pageSize).Find`.  A nil
query in the source means no `Where` clause, i.e. the always-true
predicate here.  Returns the page of rows and the total count. -/
def BaseRepository.FindPage (rows : List Demo) (page pageSize : Nat)
    (query : Demo → Bool) : List Demo × Nat :=
  let db := rows.filter query
  let total := db.length
  let offset := (page - 1) * pageSize
  ((db.drop offset).take pageSize, total)

/-- `DemoRepository.Create` via `BaseRepository.Create` (gorm `Create`):
the database assigns the auto-increment primary key and appends the row.
Auto-increment is modelled as one past the table size. -/
def DemoRepository.create (store : List Demo) (demo : Demo) : Demo × List Demo :=
  let assigned := { demo with id := store.length + 1 }
  (assigned, store ++ [assigned])

/-- `DemoRepository.Update` via `BaseRepository.Update` (gorm `Save`):
replaces the row with the record's primary key. -/
def DemoRepository.update (store : List Demo) (demo : Demo) : List Demo :=
  store.map (fun r => if r.id == demo.id then demo else r)

/-! ## internal/service/demo_service.go

The service threads the table state explicitly; logging calls are
effect-free and elided. -/

/-- `DemoService.GetByID`: forwards to the repository. -/
def DemoService.GetByID (store : List Demo) (id : Nat) : Except GoError Demo :=
  DemoRepository.findByIDStore store id

/-- `DemoService.Create`: rejects an empty title with
`errors.New("title cannot be empty")`, otherwise persists through the
repository; returns the record (with its assigned id) and the new table. -/
def DemoService.Create (store : List Demo) (demo : Demo) :
    Except GoError (Demo × List Demo) :=
  if demo.title == "" then Except.error (GoError.base "title cannot be empty")
  else Except.ok (DemoRepository.create store demo)

/-- `DemoService.Update`: looks the record up by id (propagating the
repository error), copies title/content/status from the argument onto
the existing record, and persists it.  The source performs no title
validation here. -/
def DemoService.Update (store : List Demo) (id : Nat) (demo : Demo) :
    Except GoError (List Demo) :=
  match DemoRepository.findByIDStore store id with
  | Except.error e => Except.error e
  | Except.ok existing =>
    let updated := { existing with
      title := demo.title, content := demo.content, status := demo.status }
    Except.ok (DemoRepository.update store updated)

/-! ## pkg/web/response.go + internal/controller/demo_controller.go -/

/-- The uniform envelope `{code, message, data}` together with the HTTP
status it is written with (`c.JSON(httpStatus, ...)`). -/
structure Response where
  httpStatus : Nat
  code : Nat
  message : String
  data : Option Demo
deriving DecidableEq, Repr

/-- `web.Success`: HTTP 200, code 200, message "success". -/
def web.Success (data : Option Demo) : Response :=
  { httpStatus := 200, code := 200, message := "success", data := data }

/-- `web.SuccessWithMessage`: HTTP 200, code 200, caller's message. -/
def web.SuccessWithMessage (message : String) (data : Option Demo) : Response :=
  { httpStatus := 200, code := 200, message := message, data := data }

/-- `web.BadRequest`: HTTP 400, code 400. -/
def web.BadRequest (message : String) : Response :=
  { httpStatus := 400, code := 400, message := message, data := none }

/-- `web.NotFound`: HTTP 404, code 404. -/
def web.NotFound (message : String) : Response :=
  { httpStatus := 404, code := 404, message := message, data := none }

/-- `web.InternalError`: HTTP 500, code 500. -/
def web.InternalError (message : String) : Response :=
  { httpStatus := 500, code := 500, message := message, data := none }

/-- The JSON body of `POST /api/v1/demos`; `Title` carries
`binding:"required"`, so binding fails exactly when the title is the
empty string (the zero value). -/
structure CreateRequest where
  title : String
  content : String
  status : Int
deriving DecidableEq, Repr

/-- `DemoController.Create`: bind the request (a missing/empty title is
a 400), build the record, call the service (any service error collapses
to a 500 "create demo failed"), and on success respond with
`web.SuccessWithMessage("demo created successfully", demo)`.  Returns
the response and the table state after the call. -/
def DemoController.Create (store : List Demo) (req : CreateRequest) :
    Response × List Demo :=
  if req.title == "" then
    (web.BadRequest "invalid request: Title is required", store)
  else
    let demo : Demo := { id := 0, title := req.title, content := req.content,
                         status := req.status }
    match DemoService.Create store demo with
    | Except.error _ => (web.InternalError "create demo failed", store)
    | Except.ok (created, store') =>
      (web.SuccessWithMessage "demo created successfully" (some created), store')

/-- `DemoController.GetByID` (id already parsed): maps the Not-Found
error kind to a 404 "demo not found", any other error to a 500, and
success to `web.Success`. -/
def DemoController.GetByID (store : List Demo) (id : Nat) : Response :=
  match DemoService.GetByID store id with
  | Except.error e =>
    if errIs e ErrNotFound then web.NotFound "demo not found"
    else web.InternalError "get demo failed"
  | Except.ok demo => web.Success (some demo)

/-! ## internal/middleware/cors.go

A request is observed through the two pieces of it the middleware reads:
the method and the `Origin` header.  The handler's effect is recorded as
the list of response headers it sets (in source order), the status of an
`AbortWithStatus` if one happened, and whether `ctx.Next()` — the rest
of the chain — was reached. -/

structure CORSMiddleware where
  allowOrigins : List String
  allowMethods : List String
  allowHeaders : List String
deriving DecidableEq, Repr

structure CorsRequest where
  method : String
  origin : String
deriving DecidableEq, Repr

structure HandleResult where
  headers : List (String × String)
  abortedStatus : Option Nat
  reachedNext : Bool
deriving DecidableEq, Repr

/-- `CORSMiddleware.isOriginAllowed`: an empty origin is never allowed;
otherwise the allow-list is scanned for `"*"` or an exact match. -/
def CORSMiddleware.isOriginAllowed (m : CORSMiddleware) (origin : String) : Bool :=
  if origin == "" then false
  else m.allowOrigins.any (fun allowed => allowed == "*" || allowed == origin)

/-- `CORSMiddleware.joinStrings`: first element, then ", " ++ each
following element. -/
def CORSMiddleware.joinStrings (arr : List String) : String :=
  match arr with
  | [] => ""
  | x :: rest => rest.foldl (fun acc s => acc ++ ", " ++ s) x

/-- `CORSMiddleware.Handle`: sets `Access-Control-Allow-Origin` to the
request origin when allowed, else to `"*"` when the allow-list is
exactly `["*"]`, else not at all; then the Methods/Headers/Credentials/
Max-Age headers; then aborts with 204 on `OPTIONS`, else continues. -/
def CORSMiddleware.Handle (m : CORSMiddleware) (req : CorsRequest) : HandleResult :=
  let origin := req.origin
  let originHeader : List (String × String) :=
    if m.isOriginAllowed origin then
      [("Access-Control-Allow-Origin", origin)]
    else if m.allowOrigins.length == 1 && m.allowOrigins.headD "" == "*" then
      [("Access-Control-Allow-Origin", "*")]
    else []
  let headers := originHeader ++
    [("Access-Control-Allow-Methods", CORSMiddleware.joinStrings m.allowMethods),
     ("Access-Control-Allow-Headers", CORSMiddleware.joinStrings m.allowHeaders),
     ("Access-Control-Allow-Credentials", "true"),
     ("Access-Control-Max-Age", "86400")]
  if req.method == "OPTIONS" then
    { headers := headers, abortedStatus := some 204, reachedNext := false }
  else
    { headers := headers, abortedStatus := none, reachedNext := true }

/-- Reads a response header (first write wins; each header is written at
most once on this code path). -/
def lookupHeader (hs : List (String × String)) (key : String) : Option String :=
  hs.lookup key

/-- The default middleware, `NewDefaultCORSMiddleware()` = the defaults
filled in by `NewCORSMiddleware(nil)`. -/
def defaultCORSMiddleware : CORSMiddleware :=
  { allowOrigins := ["*"],
    allowMethods := ["GET", "POST", "PUT", "DELETE", "PATCH", "OPTIONS"],
    allowHeaders := ["Content-Type", "Authorization", "X-Request-ID"] }

/-! ## pkg/security/checksum.go

`Sha1` is the lowercase-hex SHA-1 digest of the argument's UTF-8 bytes
(`crypto/sha1` + `%x` formatting), implemented here from the SHA-1
specification over `Nat` with arithmetic reduced mod 2^32. -/

/-- 32-bit left rotation on a word already below 2^32. -/
def rotl32 (x n : Nat) : Nat :=
  ((x <<< n) ||| (x >>> (32 - n))) % 4294967296

/-- Big-endian packing of bytes into 32-bit words. -/
def bytesToWords : List Nat → List Nat
  | b0 :: b1 :: b2 :: b3 :: rest =>
    (((b0 * 256 + b1) * 256 + b2) * 256 + b3) :: bytesToWords rest
  | _ => []

/-- The 64-bit big-endian byte encoding of the message bit length. -/
def be64 (n : Nat) : List Nat :=
  [(n >>> 56) % 256, (n >>> 48) % 256, (n >>> 40) % 256, (n >>> 32) % 256,
   (n >>> 24) % 256, (n >>> 16) % 256, (n >>> 8) % 256, n % 256]

/-- SHA-1 padding: a 0x80 byte, zeros to 56 mod 64, then the bit length. -/
def sha1Pad (msg : List Nat) : List Nat :=
  msg ++ [128] ++ List.replicate ((119 - msg.length % 64) % 64) 0
      ++ be64 (msg.length * 8)

/-- Message-schedule expansion of a 16-word block to 80 words. -/
def sha1Expand (w16 : Array Nat) : Array Nat :=
  (List.range 64).foldl (fun w i =>
    let t := i + 16
    w.push (rotl32 ((w.getD (t - 3) 0) ^^^ (w.getD (t - 8) 0) ^^^
                    (w.getD (t - 14) 0) ^^^ (w.getD (t - 16) 0)) 1)) w16

/-- One SHA-1 round: round index `i`, schedule word `wi`. -/
def sha1Round (st : Nat × Nat × Nat × Nat × Nat) (i wi : Nat) :
    Nat × Nat × Nat × Nat × Nat :=
  let (a, b, c, d, e) := st
  let fk : Nat × Nat :=
    if i < 20 then ((b &&& c) ||| ((b ^^^ 4294967295) &&& d), 1518500249)
    else if i < 40 then (b ^^^ c ^^^ d, 1859775393)
    else if i < 60 then ((b &&& c) ||| (b &&& d) ||| (c &&& d), 2400959708)
    else (b ^^^ c ^^^ d, 3395469782)
  let temp := (rotl32 a 5 + fk.1 + e + fk.2 + wi) % 4294967296
  (temp, a, rotl32 b 30, c, d)

/-- Compression of one 64-byte block into the running hash state. -/
def sha1Block (h : Nat × Nat × Nat × Nat × Nat) (block : List Nat) :
    Nat × Nat × Nat × Nat × Nat :=
  let w := sha1Expand (Array.mk (bytesToWords block))
  let st := (w.toList.enum).foldl (fun st p => sha1Round st p.1 p.2) h
  let (h0, h1, h2, h3, h4) := h
  let (a, b, c, d, e) := st
  ((h0 + a) % 4294967296, (h1 + b) % 4294967296, (h2 + c) % 4294967296,
   (h3 + d) % 4294967296, (h4 + e) % 4294967296)

/-- Processes `n` 64-byte blocks of the padded message. -/
def sha1Blocks : Nat → List Nat → (Nat × Nat × Nat × Nat × Nat) →
    Nat × Nat × Nat × Nat × Nat
  | 0, _, h => h
  | n + 1, bytes, h => sha1Blocks n (bytes.drop 64) (sha1Block h (bytes.take 64))

/-- One lowercase hex digit. -/
def hexDigit (n : Nat) : Char :=
  if n < 10 then Char.ofNat (48 + n) else Char.ofNat (87 + n)

/-- Eight lowercase hex digits of a 32-bit word, most significant first. -/
def hex8 (w : Nat) : String :=
  String.mk ((List.range 8).map (fun i => hexDigit ((w >>> ((7 - i) * 4)) % 16)))

/-- The UTF-8 bytes of a string, as Go's `[]byte(s)`. -/
def strBytes (s : String) : List Nat :=
  s.toUTF8.toList.map (fun b => b.toNat)

/-- `security.Sha1(data)`: `fmt.Sprintf("%x", sha1.Sum([]byte(data)))`. -/
def Sha1 (data : String) : String :=
  let padded := sha1Pad (strBytes data)
  let h := sha1Blocks (padded.length / 64) padded
    (1732584193, 4023233417, 2562383102, 271733878, 3285377520)
  hex8 h.1 ++ hex8 h.2.1 ++ hex8 h.2.2.1 ++ hex8 h.2.2.2.1 ++ hex8 h.2.2.2.2

/-- `security.ValidateCheckSum(checksum, timestamp, nonce, secret)`:
recompute `Sha1(secret + nonce + timestamp)` and compare. -/
def ValidateCheckSum (checksum timestamp nonce secret : String) : Bool :=
  Sha1 (secret ++ nonce ++ timestamp) == checksum

/-- Three seeded Demo rows used by concrete witnesses. -/
def demoSeed1 : Demo := { id := 1, title := "A", content := "x", status := 1 }

def demoSeed2 : Demo := { id := 2, title := "B", content := "y", status := 1 }

def demoSeed3 : Demo := { id := 3, title := "C", content := "z", status := 1 }

def demoSeed : List Demo := [demoSeed1, demoSeed2, demoSeed3]

/-! ## Theorems -/

/-- Unfolding equation of `errIs` on a `wrap` node. -/
theorem errIs_wrap_eq (inner : GoError) (m : String) (t : GoError) :
    errIs (GoError.wrap inner m) t = ((GoError.wrap inner m == t) || errIs inner t) :=
  rfl

/-- A `wrap` node never equals the `ErrNotFound` sentinel itself. -/
theorem wrap_beq_errNotFound (inner : GoError) (m : String) :
    (GoError.wrap inner m == ErrNotFound) = false :=
  beq_eq_false_iff_ne.mpr (fun h => GoError.noConfusion h)

/-- C1: calling `Remember` twice — a cache miss on the first call
(`Get` returns an error) and a hit on the second (the value the first
call cached) — invokes the compute callback exactly once across the two
calls, and both calls return the value the callback produced.  The
invocation count is observed through `countedCallback`, which starts at
0 and increments on each invocation of the underlying callback. -/
theorem remember_twice_invokes_compute_once
    {σ κ : Type} (m : CacheManager σ) (s : σ) (key : String) (ttl : Nat)
    (cb : κ → Except CacheErr String × κ) (k0 k1 : κ) (v : String) (ge : CacheErr)
    (h1 : m.get s key = Except.error ge)
    (hcb : cb k0 = (Except.ok v, k1))
    (h2 : m.get (CacheFacade.Remember m key ttl (countedCallback cb) s (k0, 0)).2.1 key
          = Except.ok v) :
    (CacheFacade.Remember m key ttl (countedCallback cb) s (k0, 0)).1 = Except.ok v
    ∧ (CacheFacade.Remember m key ttl (countedCallback cb)
         (CacheFacade.Remember m key ttl (countedCallback cb) s (k0, 0)).2.1
         (CacheFacade.Remember m key ttl (countedCallback cb) s (k0, 0)).2.2).1
       = Except.ok v
    ∧ (CacheFacade.Remember m key ttl (countedCallback cb)
         (CacheFacade.Remember m key ttl (countedCallback cb) s (k0, 0)).2.1
         (CacheFacade.Remember m key ttl (countedCallback cb) s (k0, 0)).2.2).2.2.2
       = 1 := by
  have hget1 : CacheFacade.get m s key = Except.error ge := by
    simp [CacheFacade.get, h1]
  have hfirst : CacheFacade.Remember m key ttl (countedCallback cb) s (k0, 0)
      = (Except.ok v, (CacheFacade.set m s key v ttl).2, (k1, 1)) := by
    simp [CacheFacade.Remember, hget1, countedCallback, hcb]
  rw [hfirst] at h2 ⊢
  have hget2 : CacheFacade.get m (CacheFacade.set m s key v ttl).2 key
      = Except.ok v := by
    simp [CacheFacade.get, h2]
  have hsecond : CacheFacade.Remember m key ttl (countedCallback cb)
      (CacheFacade.set m s key v ttl).2 (k1, 1)
      = (Except.ok v, (CacheFacade.set m s key v ttl).2, (k1, 1)) := by
    simp [CacheFacade.Remember, hget2]
  exact ⟨rfl, by rw [hsecond], by rw [hsecond]⟩

/-- Witness for C1: the concrete in-memory manager, starting empty. -/
theorem remember_twice_invokes_compute_once_witness :
    (CacheFacade.Remember memManager "k" 60
        (countedCallback (fun (u : Unit) => (Except.ok "val", u))) [] ((), 0)).1
      = Except.ok "val"
    ∧ (CacheFacade.Remember memManager "k" 60
         (countedCallback (fun (u : Unit) => (Except.ok "val", u)))
         (CacheFacade.Remember memManager "k" 60
           (countedCallback (fun (u : Unit) => (Except.ok "val", u))) [] ((), 0)).2.1
         (CacheFacade.Remember memManager "k" 60
           (countedCallback (fun (u : Unit) => (Except.ok "val", u))) [] ((), 0)).2.2).1
       = Except.ok "val"
    ∧ (CacheFacade.Remember memManager "k" 60
         (countedCallback (fun (u : Unit) => (Except.ok "val", u)))
         (CacheFacade.Remember memManager "k" 60
           (countedCallback (fun (u : Unit) => (Except.ok "val", u))) [] ((), 0)).2.1
         (CacheFacade.Remember memManager "k" 60
           (countedCallback (fun (u : Unit) => (Except.ok "val", u))) [] ((), 0)).2.2).2.2.2
       = 1 :=
  remember_twice_invokes_compute_once memManager [] "k" 60
    (fun (u : Unit) => (Except.ok "val", u)) () () "val" CacheErr.notFound rfl rfl rfl

/-- C2: when `Get` fails and the compute callback returns an error,
`Remember` returns that very error and the cache state is unchanged —
no write-back is performed. -/
theorem remember_compute_error_propagated
    {σ κ : Type} (m : CacheManager σ) (s : σ) (key : String) (ttl : Nat)
    (cb : κ → Except CacheErr String × κ) (k k' : κ) (e ge : CacheErr)
    (h1 : m.get s key = Except.error ge)
    (hcb : cb k = (Except.error e, k')) :
    CacheFacade.Remember m key ttl cb s k = (Except.error e, s, k') := by
  simp [CacheFacade.Remember, CacheFacade.get, h1, hcb]

/-- Witness for C2: in-memory manager, a callback that fails. -/
theorem remember_compute_error_propagated_witness :
    CacheFacade.Remember memManager "k" 60
        (fun (u : Unit) => (Except.error (CacheErr.backend "boom"), u)) [] ()
      = (Except.error (CacheErr.backend "boom"), [], ()) :=
  remember_compute_error_propagated memManager [] "k" 60
    (fun (u : Unit) => (Except.error (CacheErr.backend "boom"), u)) () ()
    (CacheErr.backend "boom") CacheErr.notFound rfl rfl

/-- C3: when `Get` fails and the compute callback succeeds with `v`,
`Remember` returns `ok v` for every manager — in particular for one
whose `Set` fails: the write-back result is discarded. -/
theorem remember_swallows_set_failure
    {σ κ : Type} (m : CacheManager σ) (s : σ) (key : String) (ttl : Nat)
    (cb : κ → Except CacheErr String × κ) (k k' : κ) (v : String) (ge : CacheErr)
    (h1 : m.get s key = Except.error ge)
    (hcb : cb k = (Except.ok v, k')) :
    (CacheFacade.Remember m key ttl cb s k).1 = Except.ok v := by
  simp [CacheFacade.Remember, CacheFacade.get, h1, hcb]

/-- Witness for C3: a manager whose `Set` demonstrably fails, and
`Remember` still returns the computed value. -/
theorem remember_swallows_set_failure_witness :
    (failSetManager.set () "k" "v" 60).1 = Except.error (CacheErr.backend "set failed")
    ∧ (CacheFacade.Remember failSetManager "k" 60
        (fun (u : Unit) => (Except.ok "v", u)) () ()).1 = Except.ok "v" :=
  ⟨rfl, remember_swallows_set_failure failSetManager () "k" 60
    (fun (u : Unit) => (Except.ok "v", u)) () () "v" CacheErr.notFound rfl rfl⟩

/-- C9: every error-transforming function of the errors package that
takes an error argument returns nil (`none`) when that argument is nil,
for all message/hint/detail arguments. -/
theorem goErrors_nil_in_nil_out :
    (∀ msg, GoErrors.Wrap none msg = none)
    ∧ (∀ formatted, GoErrors.Wrapf none formatted = none)
    ∧ GoErrors.WithStack none = none
    ∧ (∀ msg, GoErrors.WithMessage none msg = none)
    ∧ (∀ formatted, GoErrors.WithMessagef none formatted = none)
    ∧ (∀ hint, GoErrors.WithHint none hint = none)
    ∧ (∀ formatted, GoErrors.WithHintf none formatted = none)
    ∧ (∀ detail, GoErrors.WithDetail none detail = none)
    ∧ (∀ formatted, GoErrors.WithDetailf none formatted = none) :=
  ⟨fun _ => rfl, fun _ => rfl, rfl, fun _ => rfl, fun _ => rfl,
   fun _ => rfl, fun _ => rfl, fun _ => rfl, fun _ => rfl⟩

/-- C10: `ValidateCheckSum` holds exactly when the checksum equals the
lowercase-hex SHA-1 of `secret ++ nonce ++ timestamp` in that order (the
function is a pure function of its arguments, hence deterministic), and
a checksum produced by `Sha1` over that concatenation always validates. -/
theorem validateCheckSum_spec :
    (∀ checksum timestamp nonce secret,
        ValidateCheckSum checksum timestamp nonce secret = true ↔
          checksum = Sha1 (secret ++ nonce ++ timestamp))
    ∧ (∀ s n t, ValidateCheckSum (Sha1 (s ++ n ++ t)) t n s = true) := by
  constructor
  · intro checksum timestamp nonce secret
    unfold ValidateCheckSum
    rw [beq_iff_eq]
    exact eq_comm
  · intro s n t
    unfold ValidateCheckSum
    exact beq_self_eq_true _

/-- Witness for C10 at concrete strings. -/
theorem validateCheckSum_spec_witness :
    ValidateCheckSum (Sha1 ("s" ++ "n" ++ "t")) "t" "n" "s" = true
    ∧ (ValidateCheckSum "deadbeef" "t" "n" "s" = true ↔
        "deadbeef" = Sha1 ("s" ++ "n" ++ "t")) :=
  ⟨validateCheckSum_spec.2 "s" "n" "t", validateCheckSum_spec.1 "deadbeef" "t" "n" "s"⟩

/-- C4: when zero rows match, `FindByID` (through the Demo repository
wrapping) yields an error of exactly the Not-Found kind
(`errors.Is(e, ErrNotFound)`); when the underlying query fails with a
driver error that is not the record-not-found sentinel and not itself of
the Not-Found kind, the result is a wrapped "query by id failed" error
that is not the Not-Found kind; and the controller maps the zero-rows
case to the 404 "demo not found" response. -/
theorem findByID_notFound_kind
    (rows : List Demo) (id : Nat) (e : GoError)
    (hmiss : rows.find? (fun r => r.id == id) = none)
    (hne : e ≠ gormErrRecordNotFound)
    (hkind : errIs e ErrNotFound = false) :
    (∃ e1, DemoRepository.findByIDStore rows id = Except.error e1
        ∧ errIs e1 ErrNotFound = true)
    ∧ (∃ e2, DemoRepository.FindByID id (Except.error e) = Except.error e2
        ∧ e2 = GoError.wrap (GoError.wrap e "query by id failed")
                 ("demo not found, id: " ++ toString id)
        ∧ errIs e2 ErrNotFound = false)
    ∧ DemoController.GetByID rows id = web.NotFound "demo not found" := by
  have hfirst : dbFirstByID rows id = Except.error gormErrRecordNotFound := by
    simp [dbFirstByID, hmiss]
  have hbase : BaseRepository.FindByID (dbFirstByID rows id)
      = Except.error ErrNotFound := by
    simp [BaseRepository.FindByID, hfirst]
  have hdemo : DemoRepository.findByIDStore rows id
      = Except.error (GoError.wrap ErrNotFound ("demo not found, id: " ++ toString id)) := by
    simp [DemoRepository.findByIDStore, DemoRepository.FindByID, hbase]
  have hkind1 : errIs (GoError.wrap ErrNotFound ("demo not found, id: " ++ toString id))
      ErrNotFound = true := by
    simp [errIs, ErrNotFound]
  have hbeq : (e == gormErrRecordNotFound) = false := beq_eq_false_iff_ne.mpr hne
  refine ⟨⟨_, hdemo, hkind1⟩, ⟨_, ?_, rfl, ?_⟩, ?_⟩
  · simp [DemoRepository.FindByID, BaseRepository.FindByID, hbeq]
  · rw [errIs_wrap_eq, wrap_beq_errNotFound, errIs_wrap_eq, wrap_beq_errNotFound,
      hkind]
    rfl
  · simp [DemoController.GetByID, DemoService.GetByID, hdemo, hkind1]

/-- Witness for C4: an empty table and a concrete driver error. -/
theorem findByID_notFound_kind_witness :
    (∃ e1, DemoRepository.findByIDStore [] 1 = Except.error e1
        ∧ errIs e1 ErrNotFound = true)
    ∧ (∃ e2, DemoRepository.FindByID 1 (Except.error (GoError.base "driver boom"))
          = Except.error e2
        ∧ e2 = GoError.wrap (GoError.wrap (GoError.base "driver boom") "query by id failed")
                 ("demo not found, id: " ++ toString 1)
        ∧ errIs e2 ErrNotFound = false)
    ∧ DemoController.GetByID [] 1 = web.NotFound "demo not found" :=
  findByID_notFound_kind [] 1 (GoError.base "driver boom") rfl
    (by decide) (by decide)

/-- C5: `FindPage` returns the total count of matching rows together
with the window of matching rows starting at offset
`(page-1) * pageSize` (1-based pages, no clamping) of width `pageSize`;
and over a store whose matching rows are exactly `[a, b, c]`, page 1 of
size 2 is `([a, b], 3)` and page 2 of size 2 is `([c], 3)`. -/
theorem findPage_offset_limit :
    (∀ (rows : List Demo) (page pageSize : Nat) (q : Demo → Bool), 1 ≤ page →
      (BaseRepository.FindPage rows page pageSize q).2 = (rows.filter q).length
      ∧ (BaseRepository.FindPage rows page pageSize q).1.length
          = min pageSize ((rows.filter q).length - (page - 1) * pageSize)
      ∧ ∀ i, i < pageSize →
          (BaseRepository.FindPage rows page pageSize q).1[i]?
            = (rows.filter q)[(page - 1) * pageSize + i]?)
    ∧ (∀ (rows : List Demo) (q : Demo → Bool) (a b c : Demo),
        rows.filter q = [a, b, c] →
        BaseRepository.FindPage rows 1 2 q = ([a, b], 3)
        ∧ BaseRepository.FindPage rows 2 2 q = ([c], 3)) := by
  constructor
  · intro rows page pageSize q _hp
    refine ⟨rfl, ?_, ?_⟩
    · simp [BaseRepository.FindPage]
    · intro i hi
      show (((rows.filter q).drop ((page - 1) * pageSize)).take pageSize)[i]? = _
      rw [List.getElem?_take_of_lt hi, List.getElem?_drop]
  · intro rows q a b c h3
    constructor
    · simp [BaseRepository.FindPage, h3]
    · simp [BaseRepository.FindPage, h3]

/-- Witness for C5: three seeded rows under the trivial predicate. -/
theorem findPage_offset_limit_witness :
    BaseRepository.FindPage demoSeed 1 2 (fun _ => true) = ([demoSeed1, demoSeed2], 3)
    ∧ BaseRepository.FindPage demoSeed 2 2 (fun _ => true) = ([demoSeed3], 3)
    ∧ (BaseRepository.FindPage demoSeed 2 2 (fun _ => true)).2
        = (demoSeed.filter (fun _ => true)).length :=
  ⟨(findPage_offset_limit.2 demoSeed (fun _ => true) demoSeed1 demoSeed2 demoSeed3 rfl).1,
   (findPage_offset_limit.2 demoSeed (fun _ => true) demoSeed1 demoSeed2 demoSeed3 rfl).2,
   (findPage_offset_limit.1 demoSeed 2 2 (fun _ => true) (by decide)).1⟩

/-- C6 counterexample: updating an existing record (id 1, title "A")
with an empty title does not return an error — the service performs no
title validation on update — and the empty title is persisted. -/
theorem demoService_update_empty_title_cex :
    DemoService.Update [{ id := 1, title := "A", content := "x", status := 1 }] 1
        { id := 0, title := "", content := "", status := 0 }
      = Except.ok [{ id := 1, title := "", content := "", status := 0 }]
    ∧ (DemoService.Update [{ id := 1, title := "A", content := "x", status := 1 }] 1
        { id := 0, title := "", content := "", status := 0 }).isOk = true :=
  ⟨rfl, rfl⟩

/-- C6 (amended): `DemoService.Create` rejects an empty title with an
error and persists nothing, but `DemoService.Update` performs no title
validation: whenever the record exists, the update succeeds and persists
the given title, content and status — also when the title is empty. -/
theorem demoService_title_invariant
    (store : List Demo) (demo : Demo) (id : Nat) (existing : Demo)
    (hempty : demo.title = "")
    (hfind : DemoRepository.findByIDStore store id = Except.ok existing) :
    DemoService.Create store demo
      = Except.error (GoError.base "title cannot be empty")
    ∧ DemoService.Update store id demo
      = Except.ok (DemoRepository.update store
          { existing with title := demo.title, content := demo.content,
                          status := demo.status }) := by
  constructor
  · simp [DemoService.Create, hempty]
  · simp [DemoService.Update, hfind]

/-- Witness for C6 (amended): the concrete one-row table. -/
theorem demoService_title_invariant_witness :
    DemoService.Create [{ id := 1, title := "A", content := "x", status := 1 }]
        { id := 0, title := "", content := "", status := 0 }
      = Except.error (GoError.base "title cannot be empty")
    ∧ DemoService.Update [{ id := 1, title := "A", content := "x", status := 1 }] 1
        { id := 0, title := "", content := "", status := 0 }
      = Except.ok (DemoRepository.update
          [{ id := 1, title := "A", content := "x", status := 1 }]
          { id := 1, title := "", content := "", status := 0 }) :=
  demoService_title_invariant
    [{ id := 1, title := "A", content := "x", status := 1 }]
    { id := 0, title := "", content := "", status := 0 } 1
    { id := 1, title := "A", content := "x", status := 1 } rfl rfl

/-- C7 counterexample: the create handler's success message is
"demo created successfully", not "success". -/
theorem demoController_create_message_cex :
    (DemoController.Create [] { title := "A", content := "x", status := 1 }).1.message
      = "demo created successfully"
    ∧ (DemoController.Create [] { title := "A", content := "x", status := 1 }).1.message
      ≠ "success" :=
  ⟨rfl, by decide⟩

/-- C7 (amended): for every create request with a non-empty title, the
handler responds with the uniform envelope written at HTTP 200 whose
`code` is 200 and whose `message` is "demo created successfully", the
`data` field carrying the created record with its server-assigned id,
and the record is persisted. -/
theorem demoController_create_envelope
    (store : List Demo) (req : CreateRequest) (h : req.title ≠ "") :
    (DemoController.Create store req).1.httpStatus = 200
    ∧ (DemoController.Create store req).1.code = 200
    ∧ (DemoController.Create store req).1.message = "demo created successfully"
    ∧ (DemoController.Create store req).1.data
        = some { id := store.length + 1, title := req.title, content := req.content,
                 status := req.status }
    ∧ (DemoController.Create store req).2
        = store ++ [{ id := store.length + 1, title := req.title,
                      content := req.content, status := req.status }] := by
  have hbeq : (req.title == "") = false := beq_eq_false_iff_ne.mpr h
  simp [DemoController.Create, DemoService.Create, DemoRepository.create, hbeq,
    web.SuccessWithMessage]

/-- Witness for C7 (amended): a concrete request on the empty table. -/
theorem demoController_create_envelope_witness :
    (DemoController.Create [] { title := "A", content := "x", status := 1 }).1.code = 200
    ∧ (DemoController.Create [] { title := "A", content := "x", status := 1 }).1.message
      = "demo created successfully"
    ∧ (DemoController.Create [] { title := "A", content := "x", status := 1 }).1.data
      = some { id := 1, title := "A", content := "x", status := 1 } := by
  have h := demoController_create_envelope []
    { title := "A", content := "x", status := 1 } (by decide)
  exact ⟨h.2.1, h.2.2.1, h.2.2.2.1⟩

/-- Headers set by `CORSMiddleware.Handle` do not depend on the request
method; they are the origin header (when applicable) followed by the
four fixed headers. -/
theorem cors_handle_headers (m : CORSMiddleware) (req : CorsRequest) :
    (m.Handle req).headers =
      (if m.isOriginAllowed req.origin then
        [("Access-Control-Allow-Origin", req.origin)]
      else if m.allowOrigins.length == 1 && m.allowOrigins.headD "" == "*" then
        [("Access-Control-Allow-Origin", "*")]
      else []) ++
      [("Access-Control-Allow-Methods", CORSMiddleware.joinStrings m.allowMethods),
       ("Access-Control-Allow-Headers", CORSMiddleware.joinStrings m.allowHeaders),
       ("Access-Control-Allow-Credentials", "true"),
       ("Access-Control-Max-Age", "86400")] := by
  unfold CORSMiddleware.Handle
  by_cases hm : (req.method == "OPTIONS") = true
  · rw [if_pos hm]
  · rw [if_neg hm]

/-- C8: on an `OPTIONS` request the CORS middleware aborts with 204 and
never reaches the downstream handler; on any other method it continues;
in both cases it sets `Access-Control-Max-Age: 86400`, sets
`Access-Control-Allow-Origin` to the request origin when the origin is
in the allow-list and to `"*"` when the allow-list is the wildcard list
and the origin is not allowed (i.e. absent); and the headers set do not
depend on the method. -/
theorem cors_handle_spec (m : CORSMiddleware) (req : CorsRequest) :
    (req.method = "OPTIONS" →
        (m.Handle req).abortedStatus = some 204 ∧ (m.Handle req).reachedNext = false)
    ∧ (req.method ≠ "OPTIONS" →
        (m.Handle req).abortedStatus = none ∧ (m.Handle req).reachedNext = true)
    ∧ lookupHeader (m.Handle req).headers "Access-Control-Max-Age" = some "86400"
    ∧ (m.isOriginAllowed req.origin = true →
        lookupHeader (m.Handle req).headers "Access-Control-Allow-Origin"
          = some req.origin)
    ∧ (m.allowOrigins = ["*"] → m.isOriginAllowed req.origin = false →
        lookupHeader (m.Handle req).headers "Access-Control-Allow-Origin"
          = some "*")
    ∧ (∀ method2,
        (CORSMiddleware.Handle m { method := method2, origin := req.origin }).headers
          = (m.Handle req).headers) := by
  refine ⟨?_, ?_, ?_, ?_, ?_, ?_⟩
  · intro hm
    unfold CORSMiddleware.Handle
    simp [hm]
  · intro hm
    unfold CORSMiddleware.Handle
    simp [beq_eq_false_iff_ne.mpr hm]
  · rw [cors_handle_headers]
    by_cases h1 : m.isOriginAllowed req.origin = true
    · simp only [h1, if_true]; rfl
    · simp only [eq_false_of_ne_true h1, if_false]
      by_cases h2 : (m.allowOrigins.length == 1 && m.allowOrigins.headD "" == "*") = true
      · simp only [h2, if_true]; rfl
      · simp only [eq_false_of_ne_true h2, if_false]; rfl
  · intro h1
    rw [cors_handle_headers]
    simp only [h1, if_true]
    rfl
  · intro hw h1
    rw [cors_handle_headers]
    simp only [h1, if_false, hw]
    rfl
  · intro method2
    rw [cors_handle_headers, cors_handle_headers]

/-- Witness for C8: the default (wildcard) middleware, an `OPTIONS`
preflight from a concrete origin, and a `GET` from the same origin. -/
theorem cors_handle_spec_witness :
    (CORSMiddleware.Handle defaultCORSMiddleware
        { method := "OPTIONS", origin := "http://localhost:3000" }).abortedStatus
      = some 204
    ∧ (CORSMiddleware.Handle defaultCORSMiddleware
        { method := "OPTIONS", origin := "http://localhost:3000" }).reachedNext
      = false
    ∧ lookupHeader (CORSMiddleware.Handle defaultCORSMiddleware
        { method := "OPTIONS", origin := "http://localhost:3000" }).headers
        "Access-Control-Allow-Origin" = some "http://localhost:3000"
    ∧ lookupHeader (CORSMiddleware.Handle defaultCORSMiddleware
        { method := "OPTIONS", origin := "http://localhost:3000" }).headers
        "Access-Control-Max-Age" = some "86400"
    ∧ (CORSMiddleware.Handle defaultCORSMiddleware
        { method := "GET", origin := "http://localhost:3000" }).reachedNext = true := by
  have h1 := cors_handle_spec defaultCORSMiddleware
    { method := "OPTIONS", origin := "http://localhost:3000" }
  have h2 := cors_handle_spec defaultCORSMiddleware
    { method := "GET", origin := "http://localhost:3000" }
  exact ⟨(h1.1 rfl).1, (h1.1 rfl).2, h1.2.2.2.1 (by decide), h1.2.2.1,
    (h2.2.1 (by decide)).2⟩
